import Mathlib

/-!
Shallow embedding of `src/nslang.js`: a minimal stack-based interpreter.

Modelling conventions, stated once:

* JS values of the core are tagged objects `{t, v}` built by the four
  constructors `number`, `string`, `word`, `prim`; they become the inductive
  `Value`.  JS number payloads (float64) are modelled as exact rationals `ℚ`;
  float-specific artifacts (rounding, `Infinity` on division by zero, `NaN`)
  are outside the model's numeric domain.
* A primitive's payload is a host function `Stack -> Stack`.  The only
  primitives the repository defines (and the only ones the claims touch) are
  the four base standard-library arithmetic operations of `load_stdlib`
  (lines 206-227), so the payload is defunctionalized into `PrimCode`, and
  `applyPrim` gives each code the body of the corresponding JS closure.
  The later `stddefs` extension (`dup`, `sqrt`, lines 235-256) is outside
  the embedded fragment.
* The JS array used as the stack has its top at index `length - 1`; the
  model uses a `List Value` with the top at the head, so `stack.push` is
  `cons`, `stack.pop` takes the head, and `stack[length - 1 - i]` is `get? i`.
* JS `undefined` is modelled as `none : Option Value`.  `Array.prototype.pop`
  on an empty array returns `undefined` and leaves the array empty, so `pop`
  returns `Option Value × Stack`.  Dereferencing a field of `undefined`
  (`instr.t` in `run` after a failed lookup, `x.v` inside a primitive after
  an underflowing pop) throws a host `TypeError`; this crash is modelled by
  `Outcome.crash Err.typeError s` where `s` is the stack as already mutated
  when the exception is thrown (the caller's array keeps those mutations).
  Arithmetic on a defined non-number operand, where JS would coerce payloads
  (string concatenation, `NaN`), is likewise modelled as the crash case; no
  verified claim exercises that corner.
-/

namespace NSlang

/-- Codes for the host functions installed by the base `load_stdlib`
(lines 206-227 of `src/nslang.js`): the `+`, `-`, `*`, `/` closures. -/
inductive PrimCode where
  | add
  | sub
  | mul
  | div
deriving DecidableEq

/-- Tagged values (`number`, `string`, `word`, `prim` constructors,
lines 69-72 of `src/nslang.js`). -/
inductive Value where
  | number (v : ℚ)
  | string (v : String)
  | word (v : String)
  | prim (v : PrimCode)
deriving DecidableEq

/-- The operand stack: a JS array of values, top modelled at the head. -/
abbrev Stack := List Value

/-- A program is an array of values read left to right. -/
abbrev Program := List Value

/-- An environment is a plain JS object used as a string-keyed map;
an absent key reads as `undefined`, i.e. `none`. -/
abbrev Env := String → Option Value

/-- The single kind of host exception the embedded fragment can throw:
a `TypeError` from dereferencing a field of `undefined` (or, conservatively,
from arithmetic on a non-number payload). -/
inductive Err where
  | typeError
deriving DecidableEq

/-- Result of running code that mutates the stack: either the returned stack,
or a thrown exception together with the stack as mutated at the throw point
(the caller's array keeps the mutations performed before the throw). -/
inductive Outcome where
  | ok (s : Stack)
  | crash (e : Err) (s : Stack)
deriving DecidableEq

/-- `mk_env()` (line 119): a fresh empty map. -/
def mk_env : Env := fun _ => none

/-- `lookup(env, word)` (line 123) returns `env[word.v]`.  In the source it
is only applied to word-tagged values (`run` guards on `instr.t === 'word'`),
so the model takes the word's symbol string directly. -/
def lookup (env : Env) (w : String) : Option Value :=
  env w

/-- `define(env, key, value)` (line 127): associates the value with the key,
overwriting any prior binding, and returns the environment. -/
def define (env : Env) (key : String) (value : Value) : Env :=
  fun k => if k = key then some value else env k

/-- `push(stack, item)` (line 139): appends the item at the top and returns
the stack. -/
def push (s : Stack) (item : Value) : Stack :=
  item :: s

/-- `pop(stack)` (line 143): `Array.prototype.pop` removes and returns the
top element; on an empty array it returns `undefined` (`none`) and leaves the
array empty. -/
def pop (s : Stack) : Option Value × Stack :=
  match s with
  | [] => (none, [])
  | v :: rest => (some v, rest)

/-- `topitem(stack)` (line 146): `stack[stack.length - 1]`, which is
`undefined` on an empty array. -/
def topitem (s : Stack) : Option Value :=
  s.head?

/-- `topi(stack, i)` (line 152): `stack[stack.length - 1 - i]`, i.e. the
element at depth `i` from the top, `undefined` once `i` is out of range. -/
def topi (s : Stack) (i : Nat) : Option Value :=
  s.get? i

/-- `depth(stack)` (line 155): the element count. -/
def depth (s : Stack) : Nat :=
  s.length

/-- Bodies of the four base standard-library primitives (lines 210-225).
Each pops `y` then `x` and pushes `number(x.v OP y.v)`; if a pop returned
`undefined` the payload dereference throws (`crash`), with the pops already
applied to the observable stack. -/
def applyPrim : PrimCode → Stack → Outcome
  | .add, s =>
      let (y, s1) := pop s
      let (x, s2) := pop s1
      match x, y with
      | some (.number xv), some (.number yv) => .ok (push s2 (.number (xv + yv)))
      | _, _ => .crash .typeError s2
  | .sub, s =>
      let (y, s1) := pop s
      let (x, s2) := pop s1
      match x, y with
      | some (.number xv), some (.number yv) => .ok (push s2 (.number (xv - yv)))
      | _, _ => .crash .typeError s2
  | .mul, s =>
      let (y, s1) := pop s
      let (x, s2) := pop s1
      match x, y with
      | some (.number xv), some (.number yv) => .ok (push s2 (.number (xv * yv)))
      | _, _ => .crash .typeError s2
  | .div, s =>
      let (y, s1) := pop s
      let (x, s2) := pop s1
      match x, y with
      | some (.number xv), some (.number yv) => .ok (push s2 (.number (xv / yv)))
      | _, _ => .crash .typeError s2

/-- The word-resolution prefix of a `run` step (lines 95-97): if the
instruction is a word it is replaced by `lookup(env, instr)`, which may be
`undefined`; any other instruction stands as itself. -/
def resolve (env : Env) (instr : Value) : Option Value :=
  match instr with
  | .word w => lookup env w
  | v => some v

/-- The interpreter loop of `run` (lines 85-113) on the remaining
instruction list.  Per instruction: resolve words once; `switch (instr.t)`
on `undefined` throws a `TypeError` (`crash`, stack untouched); a primitive
replaces the stack with its result (propagating a crash); anything else is
pushed; then the loop continues with the next instruction. -/
def runFrom (env : Env) (instrs : List Value) (s : Stack) : Outcome :=
  match instrs with
  | [] => .ok s
  | instr :: rest =>
      match resolve env instr with
      | none => .crash .typeError s
      | some (.prim c) =>
          match applyPrim c s with
          | .ok s2 => runFrom env rest s2
          | .crash e s2 => .crash e s2
      | some v => runFrom env rest (push s v)

/-- `run(env, program, pc, stack)` (line 85): the `for (; pc < length; ++pc)`
loop reads `program[pc], program[pc+1], ...`, i.e. the suffix of the program
from `pc`, and returns the final stack (or the thrown exception). -/
def run (env : Env) (p : Program) (pc : Nat) (s : Stack) : Outcome :=
  runFrom env (p.drop pc) s

/-- One step of `run` at a valid `pc`, continuing at `pc + 1`
(used to state that the loop advances the program counter by exactly 1). -/
def runStep (env : Env) (p : Program) (pc : Nat) (h : pc < p.length) (s : Stack) : Outcome :=
  match resolve env (p.get ⟨pc, h⟩) with
  | none => .crash .typeError s
  | some (.prim c) =>
      match applyPrim c s with
      | .ok s2 => run env p (pc + 1) s2
      | .crash e s2 => .crash e s2
  | some v => run env p (pc + 1) (push s v)

/-- `load_stdlib(env)` (lines 206-227): the base standard library, defining
the four arithmetic primitives by chained `define` calls. -/
def load_stdlib (env : Env) : Env :=
  define (define (define (define env "+" (.prim .add)) "-" (.prim .sub)) "*" (.prim .mul)) "/" (.prim .div)

/-- The loop of `run` with an added step counter: the result together with
the number of loop iterations executed (an iteration that throws counts
as the final one). -/
def runFromCount (env : Env) (instrs : List Value) (s : Stack) : Outcome × Nat :=
  match instrs with
  | [] => (.ok s, 0)
  | instr :: rest =>
      match resolve env instr with
      | none => (.crash .typeError s, 1)
      | some (.prim c) =>
          match applyPrim c s with
          | .ok s2 => ((runFromCount env rest s2).1, (runFromCount env rest s2).2 + 1)
          | .crash e s2 => (.crash e s2, 1)
      | some v => ((runFromCount env rest (push s v)).1, (runFromCount env rest (push s v)).2 + 1)

/-- `run` with the step counter. -/
def runCount (env : Env) (p : Program) (pc : Nat) (s : Stack) : Outcome × Nat :=
  runFromCount env (p.drop pc) s

/-- The loop of `run` with the environment component of the interpreter
state threaded explicitly and returned.  The loop body of the source never
rebinds `env` (no `define` occurs in `run`, and `apply(instr, stack)` hands
a primitive only the stack), which the threading makes visible. -/
def runFromE (env : Env) (instrs : List Value) (s : Stack) : Outcome × Env :=
  match instrs with
  | [] => (.ok s, env)
  | instr :: rest =>
      match resolve env instr with
      | none => (.crash .typeError s, env)
      | some (.prim c) =>
          match applyPrim c s with
          | .ok s2 => runFromE env rest s2
          | .crash e s2 => (.crash e s2, env)
      | some v => runFromE env rest (push s v)

/-- `run` with the environment threaded and returned. -/
def runE (env : Env) (p : Program) (pc : Nat) (s : Stack) : Outcome × Env :=
  runFromE env (p.drop pc) s

/- ### Helper lemmas -/

/-- At a valid program counter, `run` performs exactly one step and
continues at `pc + 1`. -/
theorem run_eq_runStep (env : Env) (p : Program) (pc : Nat) (h : pc < p.length) (s : Stack) :
    run env p pc s = runStep env p pc h s := by
  unfold run runStep
  rw [List.drop_eq_getElem_cons h]
  rfl

/-- Past the end of the program, `run` returns the stack unchanged. -/
theorem run_of_length_le (env : Env) (p : Program) (pc : Nat) (s : Stack)
    (h : p.length ≤ pc) : run env p pc s = .ok s := by
  unfold run
  rw [List.drop_eq_nil_of_le h]
  rfl

/-- The counting loop computes the same outcome as the loop, in at most one
iteration per remaining instruction. -/
theorem runFromCount_spec (env : Env) (instrs : List Value) :
    ∀ s : Stack, (runFromCount env instrs s).1 = runFrom env instrs s ∧
      (runFromCount env instrs s).2 ≤ instrs.length := by
  induction instrs with
  | nil => intro s; exact ⟨rfl, Nat.le_refl 0⟩
  | cons instr rest ih =>
      intro s
      simp only [runFromCount, runFrom]
      cases hr : resolve env instr with
      | none => simp
      | some v =>
          cases v with
          | number q => simpa using ih (push s (.number q))
          | string t => simpa using ih (push s (.string t))
          | word w => simpa using ih (push s (.word w))
          | prim c =>
              cases ha : applyPrim c s with
              | ok s2 =>
                  simp only [ha]
                  simpa using ih s2
              | crash e s2 => simp [ha]

/-- The environment-threading loop returns the loop's outcome together with
the environment it was started with. -/
theorem runFromE_spec (env : Env) (instrs : List Value) :
    ∀ s : Stack, runFromE env instrs s = (runFrom env instrs s, env) := by
  induction instrs with
  | nil => intro s; rfl
  | cons instr rest ih =>
      intro s
      simp only [runFromE, runFrom]
      cases hr : resolve env instr with
      | none => rfl
      | some v =>
          cases v with
          | number q => simpa using ih (push s (.number q))
          | string t => simpa using ih (push s (.string t))
          | word w => simpa using ih (push s (.word w))
          | prim c =>
              cases ha : applyPrim c s with
              | ok s2 =>
                  simp only [ha]
                  exact ih s2
              | crash e s2 => simp [ha]

/- ### Claim theorems -/

/-- Claim C1 (counterexample): the claim asserts that a failing step surfaces
the error "together with ... the stack as it was before the failing step".
Concretely, running `[Word("+")]` on the stack `[Number(1)]` with the standard
library loaded crashes (the second pop of `+` returns `undefined` and `x.v`
throws), but the observable stack at the crash is `[]`, not the pre-step stack
`[Number(1)]`: the successful first pop is not rolled back.  Moreover the
surfaced failure is the host `TypeError`; no `UnboundWord`/`pc` payload
exists in the code. -/
theorem prim_underflow_mutates_stack :
    run (load_stdlib mk_env) [Value.word "+"] 0 [Value.number 1] =
      Outcome.crash Err.typeError [] ∧
    ([Value.number 1] : Stack) ≠ ([] : Stack) :=
  ⟨rfl, by decide⟩

/-- Claim C1 (amended): when a step's word resolution yields `undefined`, or
the primitive it dispatches to throws, `run` halts at that step with the
thrown error and executes no later instruction.  For a lookup failure the
observable stack is exactly the pre-step stack; for a primitive failure it is
the stack as the primitive left it at the throw (pops already applied).  In
particular `[Word("missing")]` on an empty environment crashes with the host
`TypeError`, stack unchanged. -/
theorem run_halts_at_first_failure (env : Env) (p : Program) (pc : Nat) (s : Stack)
    (h : pc < p.length) :
    (resolve env (p.get ⟨pc, h⟩) = none → run env p pc s = Outcome.crash Err.typeError s) ∧
    (∀ c e s2, resolve env (p.get ⟨pc, h⟩) = some (Value.prim c) →
      applyPrim c s = Outcome.crash e s2 → run env p pc s = Outcome.crash e s2) ∧
    run mk_env [Value.word "missing"] 0 [] = Outcome.crash Err.typeError [] := by
  refine ⟨?_, ?_, rfl⟩
  · intro hn
    rw [run_eq_runStep env p pc h s]
    unfold runStep
    rw [hn]
  · intro c e s2 hp ha
    rw [run_eq_runStep env p pc h s]
    unfold runStep
    rw [hp]
    simp [ha]

/-- Claim C1 (witness): the amended theorem applied to the concrete
one-instruction program `[Word("missing")]` on an empty environment. -/
theorem run_halts_at_first_failure_witness :
    run mk_env [Value.word "missing"] 0 [] = Outcome.crash Err.typeError [] :=
  (run_halts_at_first_failure mk_env [Value.word "missing"] 0 [] Nat.one_pos).1 rfl

/-- Claim C2: a word instruction is resolved exactly once; when the resolved
value is itself a word it is pushed literally (the default `switch` case),
never resolved again.  Running `[Word("a")]` when `"a"` is bound to
`Word("b")` leaves exactly the literal `Word("b")` on the stack. -/
theorem word_alias_pushed_literally :
    (∀ (env : Env) (p : Program) (pc : Nat) (s : Stack) (h : pc < p.length) (w b : String),
        p.get ⟨pc, h⟩ = Value.word w → lookup env w = some (Value.word b) →
        run env p pc s = run env p (pc + 1) (push s (Value.word b))) ∧
    (∀ (env : Env) (s : Stack) (b : String),
        lookup env "a" = some (Value.word b) →
        run env [Value.word "a"] 0 s = Outcome.ok (Value.word b :: s)) := by
  constructor
  · intro env p pc s h w b hget hl
    rw [run_eq_runStep env p pc h s]
    unfold runStep
    rw [hget]
    simp [resolve, hl]
  · intro env s b hl
    show runFrom env [Value.word "a"] s = _
    simp [runFrom, resolve, hl, push]

/-- Claim C2 (witness): the theorem applied to the concrete environment
binding `"a"` to `Word("b")`. -/
theorem word_alias_pushed_literally_witness :
    run (define mk_env "a" (Value.word "b")) [Value.word "a"] 0 [] =
      Outcome.ok [Value.word "b"] :=
  word_alias_pushed_literally.2 (define mk_env "a" (Value.word "b")) [] "b" rfl

/-- Claim C3 (counterexample): `pop` on the empty stack does not fail with a
checked `StackUnderflow`; it returns exactly the `undefined` sentinel the
claim rules out (JS `Array.prototype.pop` on an empty array), and `topitem`
and `topi` beyond the depth likewise read as `undefined`. -/
theorem pop_empty_returns_undefined :
    pop ([] : Stack) = (none, ([] : Stack)) ∧ topitem ([] : Stack) = none ∧
      topi ([] : Stack) 0 = none :=
  ⟨rfl, rfl, rfl⟩

/-- Claim C3 (amended): `pop` on a non-empty stack removes and returns the
top value; on an empty stack it returns the `undefined` sentinel (`none`) and
leaves the stack empty, with no checked `StackUnderflow` error; `topitem` on
an empty stack is `undefined`, and `topi(stack, i)` is `undefined` whenever
`i` is at least the depth. -/
theorem stack_reads_out_of_range (v : Value) (s : Stack) (i : Nat) :
    pop (v :: s) = (some v, s) ∧ (depth s ≤ i → topi s i = none) ∧
      pop ([] : Stack) = (none, ([] : Stack)) ∧ topitem ([] : Stack) = none := by
  refine ⟨rfl, ?_, rfl, rfl⟩
  intro hle
  exact List.get?_eq_none.mpr hle

/-- Claim C3 (witness): the amended theorem at the singleton stack
`[Number(1)]` and at depth 0 of the empty stack. -/
theorem stack_reads_out_of_range_witness :
    pop [Value.number 1] = (some (Value.number 1), ([] : Stack)) ∧
      topi ([] : Stack) 0 = none :=
  ⟨(stack_reads_out_of_range (Value.number 1) [] 0).1,
   (stack_reads_out_of_range (Value.number 1) [] 0).2.1 (Nat.le_refl 0)⟩

/-- Claim C4 (counterexample): `lookup(create(), Word("undefined_name"))`
does not fail with `UnboundWord("undefined_name")`; `env[word.v]` on an
absent key reads as the `undefined` sentinel (`none`) — the code has no
error channel at all. -/
theorem lookup_missing_returns_undefined :
    lookup mk_env "undefined_name" = none :=
  rfl

/-- Claim C4 (amended): `lookup(env, word)` returns the Value bound to the
word's symbol when a binding exists (here witnessed through `define`), and
returns the `undefined` sentinel (`none`), not a checked `UnboundWord` error,
when the symbol is absent. -/
theorem lookup_returns_binding_or_undefined :
    (∀ (env : Env) (k : String) (v : Value), lookup (define env k v) k = some v) ∧
    lookup mk_env "undefined_name" = none := by
  refine ⟨?_, rfl⟩
  intro env k v
  simp [lookup, define]

/-- Claim C5: running `[Number(1), Number(2), Word("+")]` from `pc = 0` with
an empty initial stack against the standard-library environment terminates
successfully with the stack `[Number(3)]` (the `tests.smoke` program). -/
theorem smoke_program_yields_three :
    run (load_stdlib mk_env) [Value.number 1, Value.number 2, Value.word "+"] 0 [] =
      Outcome.ok [Value.number 3] := by
  show runFrom _ _ _ = _
  simp [runFrom, resolve, lookup, load_stdlib, define, mk_env, applyPrim, pop, push]
  norm_num

/-- Claim C6: `define` binds a key to a value, overwriting any prior binding
(the later of two chained `define` calls on the same key wins under
`lookup`), and returns the environment so calls compose by chaining; in
particular `lookup(define(env, "x", Number(42)), Word("x"))` yields
`Number(42)`. -/
theorem define_overwrites_and_chains :
    (∀ (env : Env) (k : String) (v1 v2 : Value),
        lookup (define (define env k v1) k v2) k = some v2) ∧
    (∀ env : Env, lookup (define env "x" (Value.number 42)) "x" = some (Value.number 42)) := by
  constructor
  · intro env k v1 v2
    simp [lookup, define]
  · intro env
    simp [lookup, define]

/-- Claim C7: `push` immediately followed by `pop` returns the pushed value
and leaves the stack's contents — hence its depth — exactly as before the
push. -/
theorem push_then_pop_roundtrip (s : Stack) (v : Value) :
    pop (push s v) = (some v, s) ∧ depth (pop (push s v)).2 = depth s :=
  ⟨rfl, rfl⟩

/-- Claim C8: `run` terminates: the loop executes at most one step per
remaining instruction (at most `p.length - pc` steps, so at most `n` steps
for a length-`n` program started at `pc = 0`), returns the stack as soon as
`pc` reaches the program length, and at a valid `pc` performs exactly one
step and continues at `pc + 1` — the counter never moves backwards or
jumps. -/
theorem run_advances_pc_and_terminates (env : Env) (p : Program) (pc : Nat) (s : Stack) :
    (runCount env p pc s).1 = run env p pc s ∧
    (runCount env p pc s).2 ≤ p.length - pc ∧
    (p.length ≤ pc → run env p pc s = Outcome.ok s) ∧
    (∀ h : pc < p.length, run env p pc s = runStep env p pc h s) := by
  refine ⟨(runFromCount_spec env (p.drop pc) s).1, ?_,
    fun h => run_of_length_le env p pc s h, fun h => run_eq_runStep env p pc h s⟩
  have hc := (runFromCount_spec env (p.drop pc) s).2
  simpa [runCount, List.length_drop] using hc

/-- Claim C8 (witness): the theorem applied past the end of an empty program
and at the start of the one-instruction program `[Number(7)]`. -/
theorem run_advances_pc_and_terminates_witness :
    run mk_env ([] : Program) 1 [] = Outcome.ok [] ∧
    run (load_stdlib mk_env) [Value.number 7] 0 [] =
      runStep (load_stdlib mk_env) [Value.number 7] 0 Nat.one_pos [] :=
  ⟨(run_advances_pc_and_terminates mk_env [] 1 []).2.2.1 (Nat.zero_le 1),
   (run_advances_pc_and_terminates (load_stdlib mk_env) [Value.number 7] 0 []).2.2.2 Nat.one_pos⟩

/-- Claim C9: `run` mutates only the stack: with the environment component
of the interpreter state threaded explicitly, the environment coming out of
a run is exactly the environment that went in — no key is added, removed or
rebound by the loop or by the primitives, which receive only the stack. -/
theorem run_leaves_env_unchanged (env : Env) (p : Program) (pc : Nat) (s : Stack) :
    runE env p pc s = (run env p pc s, env) :=
  runFromE_spec env (p.drop pc) s

/-- Claim C10: on a stack whose top two elements are `Number(x)` below
`Number(y)`, the standard-library `-` primitive replaces them with
`Number(x - y)` and `/` with `Number(x / y)`: the value popped second (the
deeper one) is the left operand, and the stack below the operands is
untouched.  `load_stdlib` is what binds `-` and `/` to these primitives. -/
theorem sub_div_operand_order (x y : ℚ) (rest : Stack) :
    applyPrim PrimCode.sub (Value.number y :: Value.number x :: rest) =
      Outcome.ok (Value.number (x - y) :: rest) ∧
    applyPrim PrimCode.div (Value.number y :: Value.number x :: rest) =
      Outcome.ok (Value.number (x / y) :: rest) ∧
    lookup (load_stdlib mk_env) "-" = some (Value.prim PrimCode.sub) ∧
    lookup (load_stdlib mk_env) "/" = some (Value.prim PrimCode.div) :=
  ⟨rfl, rfl, rfl, rfl⟩

end NSlang
